import Mathlib

/-!
Verification of the Axur risk-scoring toolkit against its design specification.

The Python source is embedded shallowly: dict-shaped records become structures
with `Option` fields (Python `dict.get` defaults become `Option.getD`),
Python floats become `ℚ`, Python `int()` truncation becomes `pyInt`,
Python dicts with insertion order become association lists, and Python
strings become `String` (converted to `List Char` where the source does
substring or case work).
-/

/-- Python `int()` applied to a float/rational: truncation toward zero. -/
def pyInt (q : ℚ) : ℤ := if 0 ≤ q then ⌊q⌋ else ⌈q⌉

/-- A ticket as consumed by the risk calculator: `detection.type`
(default `"unknown"` when absent) and `current.resolution` (nullable). -/
structure Ticket where
  detectionType : Option String
  resolution : Option String
deriving DecidableEq

/-- Accessor `ticket.get("detection", {}).get("type", "unknown")`. -/
def Ticket.ty (t : Ticket) : String := t.detectionType.getD "unknown"

/-- Table `THREAT_WEIGHTS` from `use_cases/risk_scoring/calculator.py`. -/
def THREAT_WEIGHTS : List (String × ℕ) :=
  [("ransomware-attack", 100),
   ("data-exposure-message", 80),
   ("infostealer-credential", 70),
   ("corporate-credential-leak", 60),
   ("malware", 50),
   ("phishing", 50),
   ("fake-mobile-app", 40),
   ("fraudulent-brand-use", 20),
   ("similar-domain-name", 15),
   ("dw-activity", 30),
   ("data-exposure", 40),
   ("default", 10)]

/-- Lookup `THREAT_WEIGHTS.get(ticket_type, THREAT_WEIGHTS["default"])`. -/
def threatWeight (ty : String) : ℕ :=
  (((THREAT_WEIGHTS.find? (fun p => p.1 == ty)).map (·.2)).getD 10)

/-- One value of the per-type `breakdown` dict: `{"count": _, "weight": _, "score": _}`. -/
structure BreakdownEntry where
  count : ℕ
  weight : ℕ
  score : ℕ
deriving DecidableEq

/-- Result triple of `calculate_weighted_incidents`. -/
structure WeightedIncidents where
  weightedScore : ℕ
  totalCount : ℕ
  breakdown : List (String × BreakdownEntry)
deriving DecidableEq

/-- Processing one ticket against the `breakdown` dict: bump the entry for
`ty` if the key is present, otherwise insert `{count: 1, weight: w, score: w}`
at the end (Python dict insertion order). -/
def bumpBreakdown (ty : String) (w : ℕ) :
    List (String × BreakdownEntry) → List (String × BreakdownEntry)
  | [] => [(ty, ⟨1, w, w⟩)]
  | p :: rest =>
    if p.1 = ty then (p.1, ⟨p.2.count + 1, p.2.weight, p.2.score + w⟩) :: rest
    else p :: bumpBreakdown ty w rest

/-- The ticket loop of `calculate_weighted_incidents`: skip a ticket whose
`current.resolution` is `"discarded"` when `exclude_discarded` is set,
otherwise record it in the breakdown dict. -/
def weightedLoop (excl : Bool) : List Ticket → List (String × BreakdownEntry) →
    List (String × BreakdownEntry)
  | [], bd => bd
  | t :: ts, bd =>
    if excl && (t.resolution == some "discarded") then weightedLoop excl ts bd
    else weightedLoop excl ts (bumpBreakdown t.ty (threatWeight t.ty) bd)

/-- Python `sum(info["count"] for info in breakdown.values())`. -/
def sumCounts (bd : List (String × BreakdownEntry)) : ℕ :=
  (bd.map (fun p => p.2.count)).sum

/-- Python `sum(info["score"] for info in breakdown.values())`. -/
def sumScores (bd : List (String × BreakdownEntry)) : ℕ :=
  (bd.map (fun p => p.2.score)).sum

/-- Function `calculate_weighted_incidents` from `use_cases/risk_scoring/calculator.py`. -/
def calculate_weighted_incidents (tickets : List Ticket) (exclude_discarded : Bool) :
    WeightedIncidents :=
  let bd := weightedLoop exclude_discarded tickets []
  ⟨sumScores bd, sumCounts bd, bd⟩

/-- Per-ticket test `t.get("detection", {}).get("type") == "infostealer-credential"`.
A ticket with no type field compares unequal (Python `None != str`). -/
def isStealer (t : Ticket) : Bool := t.detectionType == some "infostealer-credential"

/-- Function `calculate_stealer_factor` from `use_cases/risk_scoring/calculator.py`:
returns `(penalty factor, stealer count)`. -/
def calculate_stealer_factor (tickets : List Ticket) : ℚ × ℕ :=
  let stealer_count := tickets.countP isStealer
  if stealer_count = 0 then (0, 0)
  else if stealer_count ≤ 5 then (0.2, stealer_count)
  else if stealer_count ≤ 20 then (0.5, stealer_count)
  else (1, stealer_count)

/-- Function `determine_grade` from `use_cases/risk_scoring/calculator.py`:
letter grade and status string from the final score. -/
def determine_grade (score : ℤ) : String × String :=
  if 850 ≤ score then ("A", "Excelente - Postura de seguridad superior")
  else if 700 ≤ score then ("B", "Bueno - Riesgo controlado")
  else if 550 ≤ score then ("C", "Moderado - Requiere atención")
  else if 400 ≤ score then ("D", "Alto Riesgo - Acción inmediata requerida")
  else ("F", "Crítico - Múltiples vectores de ataque activos")

/-- The score aggregation of `calculate_risk_score`
(`use_cases/risk_scoring/calculator.py`, lines 306-312): branch on
`benchmark_ratio > 0`, cap the base at 500, multiply the three
`(1 + factor)` penalties, truncate with `int()` and clamp to `[0, 1000]`. -/
def aggregateScore (weighted_score benchmark_ratio stealer_factor slow_factor
    reputational_factor : ℚ) : ℤ :=
  let base_score : ℚ :=
    if 0 < benchmark_ratio then min 500 (weighted_score / max benchmark_ratio (1/2))
    else min 500 weighted_score
  let total_penalty : ℚ := (1 + stealer_factor) * (1 + slow_factor) * (1 + reputational_factor)
  max 0 (min 1000 (pyInt (1000 - base_score * total_penalty)))

/-- Container mirroring `RiskScoreResult` in `use_cases/risk_scoring/calculator.py`. -/
structure RiskScoreResult where
  score : ℤ
  grade : String
  status : String
  totalIncidents : ℕ
  weightedScore : ℕ
  benchmarkRatio : ℚ
  stealerFactor : ℚ
  efficiencyPct : ℚ
  reputationalFactor : ℚ
  breakdown : List (String × BreakdownEntry)

/-- The pure scoring part of `calculate_risk_score`
(`use_cases/risk_scoring/calculator.py`): everything after the ticket fetch,
as a function of the fetched ticket list and the `exclude_discarded` flag.
`sector_median` is the literal 100, efficiency is disabled (`slow_factor = 0`)
and the reputational factor is the placeholder 0. -/
def calculate_risk_score (tickets : List Ticket) (exclude_discarded : Bool) :
    RiskScoreResult :=
  let wi := calculate_weighted_incidents tickets exclude_discarded
  let benchmark_ratio : ℚ := (wi.totalCount : ℚ) / 100
  let stealer_factor := (calculate_stealer_factor tickets).1
  let efficiency_pct : ℚ := 0
  let slow_factor : ℚ := 0
  let reputational_factor : ℚ := 0
  let final_score := aggregateScore (wi.weightedScore : ℚ) benchmark_ratio
    stealer_factor slow_factor reputational_factor
  let gs := determine_grade final_score
  ⟨final_score, gs.1, gs.2, wi.totalCount, wi.weightedScore, benchmark_ratio,
   stealer_factor, efficiency_pct, reputational_factor, wi.breakdown⟩

/-! ### Transport and pagination (`core/axur_client.py`) -/

/-- The outcome of one HTTP round inside `AxurClient._paginate`: either a
response (status code, raw body text, and the parsed array found under the
result key, i.e. `data.get(result_key, [])`), or a
`requests.exceptions.RequestException` with its text. Body and message text
are modelled as `List Char`. -/
inductive FetchOutcome where
  | response (status : ℕ) (body : List Char) (items : List Ticket)
  | netFail (detail : List Char)

/-- A raised Python exception: its class name and its message. All three
failure branches of `_paginate` raise the builtin `Exception` class. -/
structure PyExc where
  cls : String
  msg : List Char
deriving DecidableEq

/-- The literal message raised on HTTP 429. -/
def rateLimitMsg : List Char :=
  "API rate limit exceeded. Please wait and try again.".toList

/-- Message `f"Network error: {str(e)}"`. -/
def netErrMsg (detail : List Char) : List Char := "Network error: ".toList ++ detail

/-- Message `f"API error {response.status_code}: {response.text[:200]}"`. -/
def apiErrMsg (status : ℕ) (body : List Char) : List Char :=
  "API error ".toList ++ Nat.toDigits 10 status ++ ": ".toList ++ body.take 200

/-- The per-response error translation of `AxurClient._paginate`
(`core/axur_client.py`, lines 115-144): 200 yields the parsed items, 429
raises the fixed rate-limit `Exception`, any other status raises an
`Exception` carrying the status and the first 200 characters of the body,
and a `RequestException` is re-raised as a `Network error:` `Exception`. -/
def handleResponse (o : FetchOutcome) : Except PyExc (List Ticket) :=
  match o with
  | .response status body items =>
    if status = 200 then .ok items
    else if status = 429 then .error ⟨"Exception", rateLimitMsg⟩
    else .error ⟨"Exception", apiErrMsg status body⟩
  | .netFail detail => .error ⟨"Exception", netErrMsg detail⟩

/-- The class of the exception raised by a fetch step, if one was raised. -/
def raisedClass (r : Except PyExc (List Ticket)) : Option String :=
  match r with
  | .error e => some e.cls
  | .ok _ => none

/-- The first nine characters of a raised message: enough for a caller to
tell the three failure cases of `_paginate` apart. -/
def msgTag (m : List Char) : List Char := m.take 9

/-- Python's substring containment test `needle in hay`, on character lists. -/
def containsSub (needle hay : List Char) : Bool := decide (needle <:+: hay)

/-- The `while True` pagination loop of `AxurClient._paginate`, with the
successful-response path made explicit: `server page` is the array parsed
from page number `page`; stop with the accumulated items when it is empty,
append it and stop when it is shorter than `page_size`, otherwise append it
and move to the next page. `fuel` bounds the number of rounds so that the
recursion is total; `none` means the fuel ran out. -/
def paginateLoop {α : Type} (server : ℕ → List α) (pageSize : ℕ) :
    ℕ → ℕ → List α → Option (List α)
  | 0, _, _ => none
  | fuel + 1, page, acc =>
    let items := server page
    if items.isEmpty then some acc
    else if items.length < pageSize then some (acc ++ items)
    else paginateLoop server pageSize fuel (page + 1) (acc ++ items)

/-- A finite sequence of server pages, as the server answering page `n`
(pages are numbered from 1; pages past the end of the list are empty). -/
def serverOfPages {α : Type} (pages : List (List α)) : ℕ → List α :=
  fun n => pages.getD (n - 1) []

/-- Method `_paginate` run against a finite sequence of server pages, starting at
page 1 with an empty accumulator and enough fuel for every page. -/
def fetchAll {α : Type} (pages : List (List α)) (pageSize : ℕ) : Option (List α) :=
  paginateLoop (serverOfPages pages) pageSize (pages.length + 1) 1 []

/-- Modelled from the spec's termination rule for `PagedFetcher`: the pages
actually consumed, in page order — keep taking full pages, include a final
short page, stop at an empty page. -/
def pagesUntilStop {α : Type} (pageSize : ℕ) : List (List α) → List (List α)
  | [] => []
  | p :: rest =>
    if p.isEmpty then []
    else if p.length < pageSize then [p]
    else p :: pagesUntilStop pageSize rest

/-! ### Domain-to-brand matching (`core/axur_client.py`) -/

/-- A brand as built by `get_customer_assets`: display name and the
`OFFICIAL_WEBSITE` property (nullable). -/
structure Brand where
  name : String
  officialWebsite : Option String
deriving DecidableEq

/-- Python `str.lower()` on the ASCII strings the matcher sees. -/
def lowerChars (s : String) : List Char := s.toList.map Char.toLower

/-- The loop body of `AxurClient._match_domain_to_brand`: per brand,
lowercase `official_website or ""`, first try the full lowercased domain as
a substring, then the domain's leading label when longer than 3 characters. -/
def matchLoop (domainLower domainBase : List Char) : List Brand → Option String
  | [] => none
  | b :: rest =>
    let site := lowerChars (b.officialWebsite.getD "")
    if containsSub domainLower site then some b.name
    else if containsSub domainBase site && decide (3 < domainBase.length) then some b.name
    else matchLoop domainLower domainBase rest

/-- Method `AxurClient._match_domain_to_brand` (`core/axur_client.py`, lines
259-273). `domain.lower().split(".")[0]` is the text before the first dot. -/
def match_domain_to_brand (domain : String) (brands : List Brand) : Option String :=
  let domainLower := lowerChars domain
  let domainBase := domainLower.takeWhile (· ≠ '.')
  matchLoop domainLower domainBase brands

/-- Modelled from the claim's words: a brand matches a domain when its
lowercased official website contains the lowercased full domain as a
substring, or contains the domain's leading label as a substring provided
that label is strictly longer than 3 characters. -/
def claimBrandMatches (domain : String) (b : Brand) : Bool :=
  let domainLower := lowerChars domain
  let domainBase := domainLower.takeWhile (· ≠ '.')
  let site := lowerChars (b.officialWebsite.getD "")
  containsSub domainLower site ||
    (containsSub domainBase site && decide (3 < domainBase.length))

/-! ### DREAD severity scorer (`mainTest.py`) -/

/-- A ticket as consumed by `calculate_dread_score`: `detection.type`,
`detection.criticality`, `ticket["creation.collector"]` and
`detection["prediction.risk"]`, all optional in the JSON. -/
structure DreadTicket where
  ty : Option String
  criticality : Option String
  collector : Option String
  predictionRisk : Option ℚ

/-- Table `DREAD_REPRODUCIBILITY` from `mainTest.py`. -/
def DREAD_REPRODUCIBILITY : List (String × ℕ) :=
  [("phishing", 9),
   ("fake-social-media-profile", 8),
   ("similar-domain-name", 7),
   ("malware", 6),
   ("ransomware-attack", 5),
   ("corporate-credential-leak", 4),
   ("infostealer-credential", 8)]

/-- Table `damage_map = {"high": 9, "medium": 6, "low": 3}` from `mainTest.py`. -/
def damage_map : List (String × ℕ) := [("high", 9), ("medium", 6), ("low", 3)]

/-- The five DREAD components of one ticket. `E` is an integer because the
source computes it with `int()` from a float. -/
structure DreadComponents where
  d : ℤ
  r : ℤ
  e : ℤ
  a : ℤ
  d2 : ℤ
deriving DecidableEq

/-- Function `calculate_dread_score` from `mainTest.py` (lines 1102-1157), restricted
to the five components (the returned dict's `components` entry; the
`score` entry is their mean rounded to one decimal). -/
def calculate_dread_score (t : DreadTicket) : DreadComponents :=
  let ticket_type := t.ty.getD "unknown"
  let criticality := t.criticality.getD "medium"
  let collector := t.collector.getD ""
  let prediction_risk := t.predictionRisk.getD 0.5
  let dD : ℤ := ((damage_map.find? (fun p => p.1 == criticality)).map (·.2)).getD 5
  let dR : ℤ := ((DREAD_REPRODUCIBILITY.find? (fun p => p.1 == ticket_type)).map (·.2)).getD 5
  let dE : ℤ := pyInt (prediction_risk * 10)
  let tyChars := ticket_type.toList
  let dA : ℤ :=
    if containsSub "executive".toList tyChars then 9
    else if containsSub "credential".toList tyChars then 7
    else if containsSub "phishing".toList tyChars then 6
    else 4
  let collLower := lowerChars collector
  let dD2 : ℤ :=
    if containsSub "telegram".toList collLower || containsSub "twitter".toList collLower then 9
    else if containsSub "deep".toList collLower || containsSub "dark".toList collLower then 4
    else 6
  ⟨dD, dR, dE, dA, dD2⟩

/-! ### STRIDE category classifier (`use_cases/executive_reports/generator.py`) -/

/-- Table `STRIDE_MAPPING` from `use_cases/executive_reports/generator.py`. -/
def STRIDE_MAPPING : List (String × String) :=
  [("phishing", "S"),
   ("fake-social-media-profile", "S"),
   ("executive-fake-social-media-profile", "S"),
   ("similar-domain-name", "S"),
   ("fraudulent-brand-use", "T"),
   ("fake-mobile-app", "T"),
   ("unauthorized-sale", "R"),
   ("unauthorized-distribution", "R"),
   ("corporate-credential-leak", "I"),
   ("code-secret-leak", "I"),
   ("database-exposure", "I"),
   ("data-exposure-website", "I"),
   ("data-exposure-message", "I"),
   ("other-sensitive-data", "I"),
   ("executive-credential-leak", "I"),
   ("executive-personalinfo-leak", "I"),
   ("ransomware-attack", "D"),
   ("infrastructure-exposure", "D"),
   ("malware", "D"),
   ("infostealer-credential", "E"),
   ("executive-card-leak", "E"),
   ("executive-mobile-phone", "E")]

/-- The key order of `STRIDE_NAMES`, which is the iteration order of the
`category_data` dict in `classify_stride`. -/
def STRIDE_ORDER : List String := ["S", "T", "R", "I", "D", "E"]

/-- Lookup into `STRIDE_NAMES` (display name of a category code). -/
def strideName (cat : String) : String :=
  if cat = "S" then "Spoofing (Identity Impersonation)"
  else if cat = "T" then "Tampering (Data Modification)"
  else if cat = "R" then "Repudiation (Deniability)"
  else if cat = "I" then "Information Disclosure"
  else if cat = "D" then "Denial of Service"
  else "Elevation of Privilege"

/-- Lookup `STRIDE_MAPPING.get(ticket_type, "I")`. -/
def strideCategory (ty : String) : String :=
  (((STRIDE_MAPPING.find? (fun p => p.1 == ty)).map (·.2)).getD "I")

/-- Count of tickets landing in a category. -/
def strideCount (tickets : List Ticket) (cat : String) : ℕ :=
  tickets.countP (fun t => strideCategory t.ty == cat)

/-- One element of the list returned by `classify_stride` (the set-valued
`threat_types` example field is not modelled: Python set iteration order is
unspecified and no claim concerns it). -/
structure StrideResult where
  category : String
  name : String
  count : ℕ
  percentage : ℚ
deriving DecidableEq

/-- The `results` list built by `classify_stride` in
`use_cases/executive_reports/generator.py` (lines 259-288), as a function of
the fetched tickets: count per category in the fixed `STRIDE_NAMES` key
order, keep the categories with a nonzero count, attach
`count / total * 100` (0 when the total is 0). -/
def strideResults (tickets : List Ticket) : List StrideResult :=
  STRIDE_ORDER.filterMap (fun cat =>
    let c := strideCount tickets cat
    if 0 < c then
      some ⟨cat, strideName cat, c,
        if 0 < tickets.length then (c : ℚ) / tickets.length * 100 else 0⟩
    else none)

/-- The final `sorted(results, key=lambda x: x.count, reverse=True)`:
a stable sort, descending by count. -/
def classify_stride (tickets : List Ticket) : List StrideResult :=
  (strideResults tickets).mergeSort (fun a b => decide (b.count ≤ a.count))

/-- A concrete ticket marked as a discarded false positive, of a type absent
from the weight table. -/
def discardedTicket : Ticket := ⟨some "totally-novel-threat", some "discarded"⟩

/-- A concrete phishing ticket with no resolution. -/
def phishingTicket : Ticket := ⟨some "phishing", none⟩

/-- A concrete stealer-log ticket. -/
def stealerTicket : Ticket := ⟨some "infostealer-credential", none⟩

/-- Modelled from the claim's words for the aggregation formula:
`base = min(500, weightedScore / max(benchmarkRatio, 0.5))`,
`penaltyMult = (1+stealerFactor)*(1+slowFactor)*(1+reputationalFactor)`,
`finalScore = clamp(0, 1000, round(1000 - base * penaltyMult))` with
round-to-nearest. -/
def claimAggregate (weighted_score benchmark_ratio stealer_factor slow_factor
    reputational_factor : ℚ) : ℤ :=
  let base : ℚ := min 500 (weighted_score / max benchmark_ratio (1/2))
  let penaltyMult : ℚ :=
    (1 + stealer_factor) * (1 + slow_factor) * (1 + reputational_factor)
  max 0 (min 1000 (round (1000 - base * penaltyMult)))

/-- A phishing ticket whose prediction risk is exactly 0.75. -/
def dreadTicket75 : DreadTicket := ⟨some "phishing", none, none, some 0.75⟩

/-- A phishing ticket whose prediction risk is exactly 0. -/
def dreadTicket0 : DreadTicket := ⟨some "phishing", none, none, some 0⟩

/-- A phishing ticket whose prediction risk is exactly 1. -/
def dreadTicket1 : DreadTicket := ⟨some "phishing", none, none, some 1⟩

/-- A small concrete incident batch: two phishing tickets and one malware
ticket. -/
def demoTickets : List Ticket :=
  [⟨some "phishing", none⟩, ⟨some "malware", none⟩, ⟨some "phishing", none⟩]

/-! ### Lemmas about the weighted-incident loop -/

lemma sumCounts_bump (ty : String) (w : ℕ) (bd : List (String × BreakdownEntry)) :
    sumCounts (bumpBreakdown ty w bd) = sumCounts bd + 1 := by
  induction bd with
  | nil => simp [bumpBreakdown, sumCounts]
  | cons p rest ih =>
    by_cases h : p.1 = ty
    · simp [bumpBreakdown, h, sumCounts]
      omega
    · simp only [bumpBreakdown, if_neg h, sumCounts, List.map_cons, List.sum_cons]
      simp only [sumCounts] at ih
      omega

lemma sumScores_bump (ty : String) (w : ℕ) (bd : List (String × BreakdownEntry)) :
    sumScores (bumpBreakdown ty w bd) = sumScores bd + w := by
  induction bd with
  | nil => simp [bumpBreakdown, sumScores]
  | cons p rest ih =>
    by_cases h : p.1 = ty
    · simp [bumpBreakdown, h, sumScores]
      omega
    · simp only [bumpBreakdown, if_neg h, sumScores, List.map_cons, List.sum_cons]
      simp only [sumScores] at ih
      omega

lemma weightedLoop_false_counts (ts : List Ticket) :
    ∀ bd, sumCounts (weightedLoop false ts bd) = sumCounts bd + ts.length := by
  induction ts with
  | nil => intro bd; simp [weightedLoop]
  | cons t ts ih =>
    intro bd
    simp only [weightedLoop, Bool.false_and, Bool.false_eq_true, if_false, ih,
      sumCounts_bump, List.length_cons]
    omega

lemma weightedLoop_false_scores (ts : List Ticket) :
    ∀ bd, sumScores (weightedLoop false ts bd)
      = sumScores bd + (ts.map (fun t => threatWeight t.ty)).sum := by
  induction ts with
  | nil => intro bd; simp [weightedLoop]
  | cons t ts ih =>
    intro bd
    simp only [weightedLoop, Bool.false_and, Bool.false_eq_true, if_false, ih,
      sumScores_bump, List.map_cons, List.sum_cons]
    omega

lemma weightedLoop_skip (t : Ticket) (h : t.resolution = some "discarded")
    (pre post : List Ticket) :
    ∀ bd, weightedLoop true (pre ++ t :: post) bd = weightedLoop true (pre ++ post) bd := by
  induction pre with
  | nil =>
    intro bd
    simp [weightedLoop, h]
  | cons p pre ih =>
    intro bd
    simp only [List.cons_append, weightedLoop, Bool.true_and]
    by_cases hc : (p.resolution == some "discarded") = true
    · rw [if_pos hc, if_pos hc]
      exact ih _
    · rw [if_neg hc, if_neg hc]
      exact ih _

/-- C7: an incident whose `resolution` equals `"discarded"` is excluded from
both the weighted score and the incident count when the exclude-discarded
flag is set (the whole result, breakdown included, is as if the incident
were absent), and is included — adding its per-type weight, default 10 for
unrecognized types, and incrementing the count — when the flag is not set. -/
theorem C7_exclude_discarded (pre post : List Ticket) (t : Ticket)
    (h : t.resolution = some "discarded") :
    calculate_weighted_incidents (pre ++ t :: post) true
        = calculate_weighted_incidents (pre ++ post) true ∧
    (calculate_weighted_incidents (pre ++ t :: post) false).weightedScore
        = (calculate_weighted_incidents (pre ++ post) false).weightedScore
            + threatWeight t.ty ∧
    (calculate_weighted_incidents (pre ++ t :: post) false).totalCount
        = (calculate_weighted_incidents (pre ++ post) false).totalCount + 1 := by
  refine ⟨?_, ?_, ?_⟩
  · unfold calculate_weighted_incidents
    rw [weightedLoop_skip t h]
  · simp only [calculate_weighted_incidents, weightedLoop_false_scores,
      List.map_append, List.map_cons, List.sum_append, List.sum_cons]
    omega
  · simp only [calculate_weighted_incidents, weightedLoop_false_counts,
      List.length_append, List.length_cons]
    omega

theorem C7_witness :
    calculate_weighted_incidents [phishingTicket, discardedTicket] true
        = calculate_weighted_incidents [phishingTicket] true ∧
    (calculate_weighted_incidents [phishingTicket, discardedTicket] false).weightedScore
        = (calculate_weighted_incidents [phishingTicket] false).weightedScore
            + threatWeight (Ticket.ty discardedTicket) ∧
    (calculate_weighted_incidents [phishingTicket, discardedTicket] false).totalCount
        = (calculate_weighted_incidents [phishingTicket] false).totalCount + 1 :=
  C7_exclude_discarded [phishingTicket] [] discardedTicket rfl

/-- C6: the stealer factor is the exact step function of the count of
incidents of the `infostealer-credential` type: 0 → 0.0, 1–5 → 0.2,
6–20 → 0.5, above 20 → 1.0. -/
theorem C6_stealer_bands (tickets : List Ticket) :
    (calculate_stealer_factor tickets).2 = tickets.countP isStealer ∧
    (tickets.countP isStealer = 0 → (calculate_stealer_factor tickets).1 = 0) ∧
    (1 ≤ tickets.countP isStealer → tickets.countP isStealer ≤ 5 →
      (calculate_stealer_factor tickets).1 = 0.2) ∧
    (6 ≤ tickets.countP isStealer → tickets.countP isStealer ≤ 20 →
      (calculate_stealer_factor tickets).1 = 0.5) ∧
    (21 ≤ tickets.countP isStealer → (calculate_stealer_factor tickets).1 = 1) := by
  simp only [calculate_stealer_factor]
  split_ifs with h1 h2 h3
  · exact ⟨h1.symm, fun _ => rfl, fun ha hb => absurd h1 (by omega),
      fun ha hb => absurd h1 (by omega), fun ha => absurd h1 (by omega)⟩
  · exact ⟨rfl, fun h0 => absurd h0 h1, fun _ _ => rfl,
      fun ha hb => absurd h2 (by omega), fun ha => absurd h2 (by omega)⟩
  · exact ⟨rfl, fun h0 => absurd h0 h1, fun ha hb => absurd hb h2,
      fun _ _ => rfl, fun ha => absurd h3 (by omega)⟩
  · exact ⟨rfl, fun h0 => absurd h0 h1, fun ha hb => absurd hb h2,
      fun ha hb => absurd hb h3, fun _ => rfl⟩

theorem C6_witness :
    (calculate_stealer_factor (List.replicate 5 stealerTicket)).1 = 0.2 ∧
    (calculate_stealer_factor (List.replicate 6 stealerTicket)).1 = 0.5 ∧
    (calculate_stealer_factor (List.replicate 20 stealerTicket)).1 = 0.5 ∧
    (calculate_stealer_factor (List.replicate 21 stealerTicket)).1 = 1 ∧
    (calculate_stealer_factor ([] : List Ticket)).1 = 0 :=
  ⟨(C6_stealer_bands _).2.2.1 (by decide) (by decide),
   (C6_stealer_bands _).2.2.2.1 (by decide) (by decide),
   (C6_stealer_bands _).2.2.2.1 (by decide) (by decide),
   (C6_stealer_bands _).2.2.2.2 (by decide),
   (C6_stealer_bands _).2.1 (by decide)⟩

/-! ### Score bounds, grade bands, aggregation formula -/

lemma aggregateScore_nonneg (w r st sl rp : ℚ) : 0 ≤ aggregateScore w r st sl rp :=
  le_max_left 0 _

lemma aggregateScore_le_1000 (w r st sl rp : ℚ) : aggregateScore w r st sl rp ≤ 1000 :=
  max_le (by norm_num) (min_le_left 1000 _)

/-- C1: for every ticket list the final score lies in `[0, 1000]`; the grade
and status are exactly `determine_grade` of the final score; and
`determine_grade` realizes the bands ≥850 → A, ≥700 → B, ≥550 → C,
≥400 → D, else F, which partition the integers with no overlap and no gap. -/
theorem C1_score_bounds_and_grade_bands (tickets : List Ticket) (excl : Bool) :
    (0 ≤ (calculate_risk_score tickets excl).score ∧
      (calculate_risk_score tickets excl).score ≤ 1000) ∧
    (calculate_risk_score tickets excl).grade
        = (determine_grade (calculate_risk_score tickets excl).score).1 ∧
    (calculate_risk_score tickets excl).status
        = (determine_grade (calculate_risk_score tickets excl).score).2 ∧
    (∀ s : ℤ,
      ((determine_grade s).1 = "A" ↔ 850 ≤ s) ∧
      ((determine_grade s).1 = "B" ↔ 700 ≤ s ∧ s < 850) ∧
      ((determine_grade s).1 = "C" ↔ 550 ≤ s ∧ s < 700) ∧
      ((determine_grade s).1 = "D" ↔ 400 ≤ s ∧ s < 550) ∧
      ((determine_grade s).1 = "F" ↔ s < 400)) := by
  refine ⟨⟨aggregateScore_nonneg _ _ _ _ _, aggregateScore_le_1000 _ _ _ _ _⟩, rfl, rfl, ?_⟩
  intro s
  simp only [determine_grade]
  split_ifs with h1 h2 h3 h4 <;> refine ⟨?_, ?_, ?_, ?_, ?_⟩ <;> simp <;> omega

/-- C2 counterexample: at `weightedScore = 1`, `benchmarkRatio = 4/5` and all
factors 0 the code truncates `1000 - 1.25 = 998.75` down to 998 while the
claimed round-to-nearest gives 999; and at `benchmarkRatio = 0` the code
takes the `min(500, weightedScore)` branch (990) while the claimed formula
divides by `max(0, 0.5)` (980). -/
theorem C2_counterexample :
    aggregateScore 1 (4/5) 0 0 0 = 998 ∧ claimAggregate 1 (4/5) 0 0 0 = 999 ∧
    aggregateScore 10 0 0 0 0 = 990 ∧ claimAggregate 10 0 0 0 0 = 980 := by
  refine ⟨?_, ?_, ?_, ?_⟩ <;>
    norm_num [aggregateScore, claimAggregate, pyInt, round_eq]

/-- C2 amended: the aggregator computes
`base = min(500, weightedScore / max(benchmarkRatio, 0.5))` when
`benchmarkRatio > 0` and `base = min(500, weightedScore)` when it is 0, and
`finalScore = clamp(0, 1000, floor(1000 - base * penaltyMult))` — `int()`
truncation, which under the clamp coincides with flooring — with no
round-to-nearest step. -/
theorem C2_aggregation_formula (w r st sl rp : ℚ) :
    aggregateScore w r st sl rp
      = max 0 (min 1000 ⌊(1000 : ℚ) -
          (if 0 < r then min 500 (w / max r (1/2)) else min 500 w)
            * ((1 + st) * (1 + sl) * (1 + rp))⌋) := by
  simp only [aggregateScore, pyInt]
  set b : ℚ := if 0 < r then min 500 (w / max r (1/2)) else min 500 w with hb
  set x : ℚ := 1000 - b * ((1 + st) * (1 + sl) * (1 + rp)) with hx
  by_cases hpos : 0 ≤ x
  · rw [if_pos hpos]
  · rw [if_neg hpos]
    push_neg at hpos
    have hc : ⌈x⌉ ≤ 0 := Int.ceil_le.mpr (by exact_mod_cast hpos.le)
    have hf : ⌊x⌋ ≤ 0 := le_trans (Int.floor_le_ceil x) hc
    omega

/-- C10: on an empty ticket list the legacy calculator returns score 1000
with grade A, weighted score 0, benchmark ratio 0, an empty breakdown and
zero total incidents. -/
theorem C10_empty_ticket_list (excl : Bool) :
    (calculate_risk_score [] excl).score = 1000 ∧
    (calculate_risk_score [] excl).grade = "A" ∧
    (calculate_risk_score [] excl).weightedScore = 0 ∧
    (calculate_risk_score [] excl).benchmarkRatio = 0 ∧
    (calculate_risk_score [] excl).breakdown = [] ∧
    (calculate_risk_score [] excl).totalIncidents = 0 := by
  have hw : calculate_weighted_incidents [] excl = ⟨0, 0, []⟩ := by
    cases excl <;> rfl
  have hsf : calculate_stealer_factor [] = (0, 0) := rfl
  have hscore : (calculate_risk_score [] excl).score = 1000 := by
    simp only [calculate_risk_score, hw, hsf]
    norm_num [aggregateScore, pyInt]
  have hgrade : (calculate_risk_score [] excl).grade
      = (determine_grade (calculate_risk_score [] excl).score).1 := rfl
  refine ⟨hscore, ?_, ?_, ?_, ?_, ?_⟩
  · rw [hgrade, hscore]
    norm_num [determine_grade]
  · simp only [calculate_risk_score, hw]
  · simp only [calculate_risk_score, hw]
    norm_num
  · simp only [calculate_risk_score, hw]
  · simp only [calculate_risk_score, hw]

/-! ### Pagination termination and result -/

lemma paginateLoop_succ {α : Type} (server : ℕ → List α) (pageSize fuel page : ℕ)
    (acc : List α) :
    paginateLoop server pageSize (fuel + 1) page acc
      = (if (server page).isEmpty then some acc
         else if (server page).length < pageSize then some (acc ++ server page)
         else paginateLoop server pageSize fuel (page + 1) (acc ++ server page)) := rfl

lemma paginateLoop_spec {α : Type} (pageSize : ℕ) :
    ∀ (pages : List (List α)) (server : ℕ → List α) (start : ℕ) (acc : List α),
      (∀ i, server (start + i) = pages.getD i []) →
      paginateLoop server pageSize (pages.length + 1) start acc
        = some (acc ++ (pagesUntilStop pageSize pages).flatten) := by
  intro pages
  induction pages with
  | nil =>
    intro server start acc h
    have h0 : server start = [] := by simpa using h 0
    rw [paginateLoop_succ]
    simp [pagesUntilStop, h0]
  | cons p rest ih =>
    intro server start acc h
    have h0 : server start = p := by simpa using h 0
    have hfuel : (p :: rest).length + 1 = rest.length + 1 + 1 := by simp
    rw [hfuel, paginateLoop_succ]
    simp only [h0, pagesUntilStop]
    by_cases hp : p.isEmpty
    · rw [if_pos hp, if_pos hp]
      simp
    · rw [if_neg hp, if_neg hp]
      by_cases hlen : p.length < pageSize
      · rw [if_pos hlen, if_pos hlen]
        simp
      · rw [if_neg hlen, if_neg hlen]
        have h' : ∀ i, server (start + 1 + i) = rest.getD i [] := by
          intro i
          have hh := h (i + 1)
          have harith : start + (i + 1) = start + 1 + i := by omega
          rw [harith] at hh
          simpa using hh
        rw [ih server (start + 1) (acc ++ p) h']
        simp

/-- C3: against any finite sequence of server pages (served in page order
starting at page 1, empty past the end), the pagination loop terminates
within `pages.length + 1` rounds and returns the concatenation, in page
order, of exactly the pages up to the stopping point — stopping on an empty
page, or just after a page strictly shorter than the page size; in
particular a page exactly equal to `pageSize` does not stop the loop, the
empty page after it does. -/
theorem C3_pagination_terminates_and_concatenates (α : Type)
    (pages : List (List α)) (pageSize : ℕ) :
    fetchAll pages pageSize = some (pagesUntilStop pageSize pages).flatten := by
  unfold fetchAll
  have h : ∀ i, serverOfPages pages (1 + i) = pages.getD i [] := by
    intro i
    simp [serverOfPages]
  rw [paginateLoop_spec pageSize pages (serverOfPages pages) 1 [] h]
  simp

/-! ### Transport error translation -/

/-- C4 counterexample: on HTTP 429, on HTTP 500 and on a connection failure
the pagination loop raises exceptions of one and the same class — the
builtin `Exception` — so no three distinct error kinds are surfaced to the
caller at the type level. -/
theorem C4_counterexample :
    raisedClass (handleResponse (.response 429 [] [])) = some "Exception" ∧
    raisedClass (handleResponse (.response 500 "server error".toList [])) = some "Exception" ∧
    raisedClass (handleResponse (.netFail "timeout".toList)) = some "Exception" :=
  ⟨rfl, rfl, rfl⟩

/-- C4 amended: the transport surfaces the three failure conditions as
generic `Exception`s distinguishable only by message text: HTTP 429 raises
the fixed rate-limit message, any other non-200 status raises
`API error {status}: ` followed by the first 200 characters of the body,
and a connection/timeout failure raises `Network error: ` plus the detail;
the first nine characters of the message identify the case, and a 200
response raises nothing. -/
theorem C4_error_translation (status : ℕ) (body detail : List Char)
    (items : List Ticket) (h200 : status ≠ 200) (h429 : status ≠ 429) :
    handleResponse (.response 200 body items) = .ok items ∧
    handleResponse (.response 429 body items) = .error ⟨"Exception", rateLimitMsg⟩ ∧
    handleResponse (.response status body items)
        = .error ⟨"Exception", apiErrMsg status body⟩ ∧
    handleResponse (.netFail detail) = .error ⟨"Exception", netErrMsg detail⟩ ∧
    msgTag rateLimitMsg = "API rate ".toList ∧
    msgTag (apiErrMsg status body) = "API error".toList ∧
    msgTag (netErrMsg detail) = "Network e".toList ∧
    ("API rate ".toList ≠ "API error".toList ∧
      "API rate ".toList ≠ "Network e".toList ∧
      "API error".toList ≠ "Network e".toList) := by
  refine ⟨rfl, rfl, ?_, rfl, rfl, rfl, rfl, by decide⟩
  simp [handleResponse, h200, h429]

theorem C4_witness :
    (500 : ℕ) ≠ 200 ∧ (500 : ℕ) ≠ 429 ∧
    handleResponse (.response 500 "boom".toList [])
      = .error ⟨"Exception", apiErrMsg 500 "boom".toList⟩ :=
  ⟨by decide, by decide,
   (C4_error_translation 500 "boom".toList "x".toList [] (by decide) (by decide)).2.2.1⟩

/-! ### Domain-to-brand matching -/

lemma matchLoop_eq_find (domain : String) :
    ∀ brands : List Brand,
      matchLoop (lowerChars domain) ((lowerChars domain).takeWhile (· ≠ '.')) brands
        = (brands.find? (claimBrandMatches domain)).map Brand.name := by
  intro brands
  induction brands with
  | nil => rfl
  | cons b bs ih =>
    have hcb : claimBrandMatches domain b
        = (containsSub (lowerChars domain) (lowerChars (b.officialWebsite.getD ""))
          || (containsSub ((lowerChars domain).takeWhile (· ≠ '.'))
                (lowerChars (b.officialWebsite.getD ""))
              && decide (3 < ((lowerChars domain).takeWhile (· ≠ '.')).length))) := rfl
    simp only [matchLoop, List.find?]
    cases h1 : containsSub (lowerChars domain) (lowerChars (b.officialWebsite.getD "")) with
    | true =>
      have hp : claimBrandMatches domain b = true := by
        simp only [hcb, h1, Bool.true_or]
      rw [hp]
      simp
    | false =>
      cases h2 : (containsSub ((lowerChars domain).takeWhile (· ≠ '.'))
          (lowerChars (b.officialWebsite.getD ""))
            && decide (3 < ((lowerChars domain).takeWhile (· ≠ '.')).length)) with
      | true =>
        have hp : claimBrandMatches domain b = true := by
          simp only [hcb, h1, h2, Bool.false_or]
        rw [hp]
        simp
      | false =>
        have hp : claimBrandMatches domain b = false := by
          simp only [hcb, h1, h2, Bool.false_or]
        rw [hp]
        simpa using ih

/-- C5: the matcher returns the first brand, in list order, whose lowercased
official website contains the lowercased full domain as a substring or —
failing that, for the same brand — contains the domain's leading label
(text before the first dot) as a substring provided the label is strictly
longer than 3 characters; it returns `none` when no brand passes either
test. Concretely, the 4-character label `"shop"` of `"shop.weird.org"`
matches a site containing `"shop"`, while the 3-character label `"abc"` of
`"abc.weird.org"` never matches via the fallback even when the site
contains `"abc"`. -/
theorem C5_domain_matching (domain : String) (brands : List Brand) :
    match_domain_to_brand domain brands
      = (brands.find? (claimBrandMatches domain)).map Brand.name ∧
    match_domain_to_brand "shop.weird.org" [⟨"Shopify", some "https://www.shopify.com"⟩]
      = some "Shopify" ∧
    match_domain_to_brand "abc.weird.org" [⟨"AbcBank", some "https://www.abcbank.com"⟩]
      = none :=
  ⟨matchLoop_eq_find domain brands, by decide, by decide⟩

/-! ### DREAD component properties -/

/-- C8 counterexample: at prediction risk 0.75 the code computes
Exploitability `int(7.5) = 7` while round-to-nearest gives 8; and at
prediction risk 0 the component is 0, outside the claimed 1–10 range. -/
theorem C8_counterexample :
    (calculate_dread_score dreadTicket75).e = 7 ∧
    round ((0.75 : ℚ) * 10) = 8 ∧
    (calculate_dread_score dreadTicket0).e = 0 := by
  refine ⟨?_, ?_, ?_⟩
  · simp only [calculate_dread_score, dreadTicket75]
    norm_num [pyInt]
  · rw [round_eq]
    norm_num
  · simp only [calculate_dread_score, dreadTicket0]
    norm_num [pyInt]

/-- C8 amended: Exploitability is `int(predictionRisk * 10)` — truncation,
which on the 0.0–1.0 prediction-risk range is flooring and lands in 0–10
(it is 0 whenever the risk is below 0.1); the four other components each
lie in 1–10 unconditionally. -/
theorem C8_dread_components (t : DreadTicket)
    (h0 : 0 ≤ t.predictionRisk.getD 0.5) (h1 : t.predictionRisk.getD 0.5 ≤ 1) :
    (calculate_dread_score t).e = ⌊t.predictionRisk.getD 0.5 * 10⌋ ∧
    (0 ≤ (calculate_dread_score t).e ∧ (calculate_dread_score t).e ≤ 10) ∧
    (1 ≤ (calculate_dread_score t).d ∧ (calculate_dread_score t).d ≤ 10) ∧
    (1 ≤ (calculate_dread_score t).r ∧ (calculate_dread_score t).r ≤ 10) ∧
    (1 ≤ (calculate_dread_score t).a ∧ (calculate_dread_score t).a ≤ 10) ∧
    (1 ≤ (calculate_dread_score t).d2 ∧ (calculate_dread_score t).d2 ≤ 10) := by
  have hq10 : (0 : ℚ) ≤ t.predictionRisk.getD 0.5 * 10 := by positivity
  have he : (calculate_dread_score t).e = ⌊t.predictionRisk.getD 0.5 * 10⌋ := by
    simp only [calculate_dread_score, pyInt]
    rw [if_pos hq10]
  refine ⟨he, ⟨?_, ?_⟩, ?_, ?_, ?_, ?_⟩
  · rw [he]
    exact Int.floor_nonneg.mpr hq10
  · rw [he]
    have hle : t.predictionRisk.getD 0.5 * 10 ≤ (10 : ℚ) := by nlinarith
    calc ⌊t.predictionRisk.getD 0.5 * 10⌋ ≤ ⌊(10 : ℚ)⌋ := Int.floor_le_floor hle
    _ = 10 := by norm_num
  · simp only [calculate_dread_score]
    rcases hf : damage_map.find? (fun p => p.1 == t.criticality.getD "medium")
        with _ | p
    · simp [hf]
    · have hmem := List.mem_of_find?_eq_some hf
      have hval : ∀ q ∈ damage_map, 1 ≤ q.2 ∧ q.2 ≤ 10 := by decide
      have := hval p hmem
      simp only [hf, Option.map_some', Option.getD_some]
      exact ⟨by exact_mod_cast this.1, by exact_mod_cast this.2⟩
  · simp only [calculate_dread_score]
    rcases hf : DREAD_REPRODUCIBILITY.find? (fun p => p.1 == t.ty.getD "unknown")
        with _ | p
    · simp [hf]
    · have hmem := List.mem_of_find?_eq_some hf
      have hval : ∀ q ∈ DREAD_REPRODUCIBILITY, 1 ≤ q.2 ∧ q.2 ≤ 10 := by decide
      have := hval p hmem
      simp only [hf, Option.map_some', Option.getD_some]
      exact ⟨by exact_mod_cast this.1, by exact_mod_cast this.2⟩
  · simp only [calculate_dread_score]
    split_ifs <;> norm_num
  · simp only [calculate_dread_score]
    split_ifs <;> norm_num

theorem C8_witness :
    (calculate_dread_score dreadTicket1).e = ⌊(dreadTicket1.predictionRisk.getD 0.5) * 10⌋ ∧
    0 ≤ (calculate_dread_score dreadTicket1).e ∧
    1 ≤ (calculate_dread_score dreadTicket1).d :=
  ⟨(C8_dread_components dreadTicket1 zero_le_one le_rfl).1,
   (C8_dread_components dreadTicket1 zero_le_one le_rfl).2.1.1,
   (C8_dread_components dreadTicket1 zero_le_one le_rfl).2.2.1.1⟩

/-! ### STRIDE classification properties -/

lemma strideCategory_mem (ty : String) : strideCategory ty ∈ STRIDE_ORDER := by
  unfold strideCategory
  rcases hf : STRIDE_MAPPING.find? (fun p => p.1 == ty) with _ | p
  · rw [hf]
    simp [STRIDE_ORDER]
  · rw [hf]
    have hmem := List.mem_of_find?_eq_some hf
    have hall : ∀ q ∈ STRIDE_MAPPING, q.2 ∈ STRIDE_ORDER := by decide
    simpa using hall p hmem

lemma sum_strideCounts (tickets : List Ticket) :
    (STRIDE_ORDER.map (fun c => strideCount tickets c)).sum = tickets.length := by
  induction tickets with
  | nil => simp [strideCount, STRIDE_ORDER]
  | cons t ts ih =>
    have hmem := strideCategory_mem t.ty
    simp only [STRIDE_ORDER, List.map_cons, List.map_nil, List.sum_cons,
      List.sum_nil] at ih ⊢
    simp only [strideCount, List.countP_cons] at ih ⊢
    simp only [STRIDE_ORDER, List.mem_cons, List.not_mem_nil, or_false] at hmem
    rcases hmem with h | h | h | h | h | h <;> simp [h] <;> omega

lemma mem_strideResults (tickets : List Ticket) (r : StrideResult)
    (hr : r ∈ strideResults tickets) :
    0 < r.count ∧ r.count = strideCount tickets r.category := by
  unfold strideResults at hr
  rcases List.mem_filterMap.mp hr with ⟨cat, _, hf⟩
  by_cases hc : 0 < strideCount tickets cat
  · rw [if_pos hc] at hf
    cases hf
    exact ⟨hc, rfl⟩
  · rw [if_neg hc] at hf
    cases hf

lemma map_category_strideResults (tickets : List Ticket) :
    (strideResults tickets).map (·.category)
      = STRIDE_ORDER.filter (fun c => 0 < strideCount tickets c) := by
  unfold strideResults
  induction STRIDE_ORDER with
  | nil => rfl
  | cons c cs ih =>
    simp only [List.filterMap_cons, List.filter_cons]
    by_cases hc : 0 < strideCount tickets c
    · rw [if_pos hc]
      simp only [List.map_cons, ih]
      rw [if_pos (by simpa using hc)]
    · rw [if_neg hc]
      rw [if_neg (by simpa using hc), ih]

lemma sum_pct_strideResults (tickets : List Ticket) (hne : tickets ≠ []) :
    ((strideResults tickets).map (·.percentage)).sum = 100 := by
  have htot : 0 < tickets.length := List.length_pos.mpr hne
  have hstep : ∀ l : List String,
      ((l.filterMap (fun cat =>
        let c := strideCount tickets cat
        if 0 < c then
          some (⟨cat, strideName cat, c,
            if 0 < tickets.length then (c : ℚ) / tickets.length * 100 else 0⟩ : StrideResult)
        else none)).map (·.percentage)).sum
        = (l.map (fun cat => (strideCount tickets cat : ℚ) / tickets.length * 100)).sum := by
    intro l
    induction l with
    | nil => rfl
    | cons c cs ih =>
      simp only [List.filterMap_cons, List.map_cons, List.sum_cons]
      by_cases hc : 0 < strideCount tickets c
      · rw [if_pos hc]
        simp only [List.map_cons, List.sum_cons]
        rw [ih]
        congr 1
        exact if_pos htot
      · rw [if_neg hc]
        rw [ih]
        have hzero : strideCount tickets c = 0 := by omega
        rw [hzero]
        push_cast
        ring
  unfold strideResults
  rw [hstep]
  have hsum : ((STRIDE_ORDER.map (fun c => strideCount tickets c)).sum : ℚ)
      = (tickets.length : ℚ) := by
    exact_mod_cast congrArg (Nat.cast : ℕ → ℚ) (sum_strideCounts tickets)
  simp only [STRIDE_ORDER, List.map_cons, List.map_nil, List.sum_cons, List.sum_nil] at hsum ⊢
  have hT : (tickets.length : ℚ) ≠ 0 := Nat.cast_ne_zero.mpr (by omega)
  field_simp
  push_cast at hsum
  linarith

/-- C9: for a non-empty batch, every returned category result has a strictly
positive count; the returned categories are exactly those with a positive
count (zero-count categories are omitted); the results are sorted descending
by count; and the percentages over the returned categories sum to exactly
100. -/
theorem C9_stride_classification (tickets : List Ticket) (hne : tickets ≠ []) :
    (∀ r ∈ classify_stride tickets, 0 < r.count) ∧
    List.Perm ((classify_stride tickets).map (·.category))
        (STRIDE_ORDER.filter (fun c => 0 < strideCount tickets c)) ∧
    (classify_stride tickets).Pairwise (fun a b => b.count ≤ a.count) ∧
    ((classify_stride tickets).map (·.percentage)).sum = 100 := by
  have hperm : List.Perm (classify_stride tickets) (strideResults tickets) :=
    List.mergeSort_perm _ _
  refine ⟨?_, ?_, ?_, ?_⟩
  · intro r hr
    exact (mem_strideResults tickets r (hperm.mem_iff.mp hr)).1
  · exact (hperm.map (·.category)).trans (by rw [map_category_strideResults])
  · have hsorted : (classify_stride tickets).Pairwise
        (fun a b : StrideResult => (decide (b.count ≤ a.count)) = true) :=
      @List.sorted_mergeSort StrideResult (fun a b => decide (b.count ≤ a.count))
        (by
          intro a b c hab hbc
          simp only [decide_eq_true_eq] at *
          omega)
        (by
          intro a b
          simp only [Bool.or_eq_true, decide_eq_true_eq]
          omega)
        (strideResults tickets)
    exact hsorted.imp (fun h => by simpa using h)
  · rw [List.Perm.sum_eq (hperm.map (·.percentage))]
    exact sum_pct_strideResults tickets hne

theorem C9_witness :
    demoTickets ≠ [] ∧
    ((classify_stride demoTickets).map (·.percentage)).sum = 100 :=
  ⟨by decide, (C9_stride_classification demoTickets (by decide)).2.2.2⟩
